import Mathlib

/-!
Shallow embedding of the retry execution engine of `lazykit`
(`src/lazykit/tool_kit.py`: `DEFAULT_RETRY_CONFIG`, `setup_retry`, `retry`
and the inner `wrapper` closure), together with theorems settling the
specification claims about it.

Modelling conventions:
* Durations and clock readings are rationals (`ℚ`).
* A Python exception instance is a `PyErr`: a class (`ExcKind`, drawn from a
  fragment of the built-in exception hierarchy rooted at `BaseException`)
  plus a payload distinguishing instances, so that "re-raised unchanged"
  is equality of `PyErr` values.
* The wrapped operation is a deterministic function from the 1-based attempt
  number to an outcome `Except PyErr V` (each call of the wrapped function
  starts a fresh attempt sequence, so indexing by attempt number is faithful
  for a single call).
* Wall-clock time: `time.time()` reads are drawn from an ambient `clock :
  Nat → ℚ` indexed by the number of reads performed so far in this call;
  `clock 0` is the `start_time` read, and a read happens inside the loop
  only when `max_duration` is truthy, exactly as in the source's
  short-circuiting `if max_duration and (time.time() - start_time) >= ...`.
* Observable side effects (operation invocations, `log_func` messages,
  `time.sleep` calls) are recorded in an event trace; `log_func` messages are
  the `warn`, `durStop` and `retryMsg` events.
* The wrapped call either returns a value (`Outcome.ok`; `Outcome.ok none`
  is Python's implicit `None` when the `for` loop body never runs) or raises
  (`Outcome.raised`).
-/

namespace LazyKit

/-- A fragment of Python's built-in exception class hierarchy:
`BaseException` at the root, `Exception` below it with ordinary error
classes under it, and the system-exiting classes `KeyboardInterrupt` /
`SystemExit` directly under `BaseException` (not under `Exception`). -/
inductive ExcKind where
  | baseException
  | exception
  | valueError
  | typeError
  | keyError
  | osError
  | runtimeError
  | keyboardInterrupt
  | systemExit
  deriving DecidableEq, Repr

/-- The class itself followed by its superclasses, up to `BaseException`. -/
def ExcKind.ancestors : ExcKind → List ExcKind
  | .baseException => [.baseException]
  | .exception => [.exception, .baseException]
  | .valueError => [.valueError, .exception, .baseException]
  | .typeError => [.typeError, .exception, .baseException]
  | .keyError => [.keyError, .exception, .baseException]
  | .osError => [.osError, .exception, .baseException]
  | .runtimeError => [.runtimeError, .exception, .baseException]
  | .keyboardInterrupt => [.keyboardInterrupt, .baseException]
  | .systemExit => [.systemExit, .baseException]

/-- `isSubclass a b`: class `a` is `b` or derives from `b` (Python
`issubclass(a, b)` for this fragment). -/
def isSubclass (a b : ExcKind) : Bool :=
  decide (b ∈ a.ancestors)

/-- A raised Python exception instance: its class and a payload
distinguishing instances of the same class. -/
structure PyErr where
  kind : ExcKind
  payload : Nat
  deriving DecidableEq, Repr

/-- `except exceptions as e` catches `e` iff `e`'s class derives from some
class in the tuple (`isinstance` check). -/
def isCaught (excs : List ExcKind) (e : PyErr) : Bool :=
  excs.any (fun k => isSubclass e.kind k)

/-- Default of the `exceptions` parameter of `retry`: `(Exception,)`. -/
def defaultExceptions : List ExcKind :=
  [ExcKind.exception]

/-- The process-wide mutable `DEFAULT_RETRY_CONFIG` dict:
`{'max_retries': ..., 'delay': ...}`. -/
structure RetryConfig where
  max_retries : Int
  delay : ℚ
  deriving DecidableEq, Repr

/-- Initial value of `DEFAULT_RETRY_CONFIG`: `{'max_retries': 3, 'delay': 1.0}`. -/
def DEFAULT_RETRY_CONFIG : RetryConfig :=
  { max_retries := 3, delay := 1 }

/-- `setup_retry(max_retries, delay)` overwrites both fields of the global
config unconditionally; modelled as producing the new global state from the
old one (which it ignores). -/
def setup_retry (_cfg : RetryConfig) (max_retries : Int) (delay : ℚ) : RetryConfig :=
  { max_retries := max_retries, delay := delay }

/-- Python `x or default` for an optional integer argument: `None` and `0`
are falsy and yield the default; any other value is taken verbatim. -/
def orDefaultInt (x : Option Int) (d : Int) : Int :=
  match x with
  | none => d
  | some v => if v = 0 then d else v

/-- Python `x or default` for an optional rational argument: `None` and `0`
are falsy and yield the default; any other value is taken verbatim. -/
def orDefaultRat (x : Option ℚ) (d : ℚ) : ℚ :=
  match x with
  | none => d
  | some v => if v = 0 then d else v

/-- Python truthiness of an optional integer (`if alert_threshold ...`):
`None` and `0` are falsy. -/
def truthyInt (x : Option Int) : Bool :=
  match x with
  | none => false
  | some v => decide (v ≠ 0)

/-- Python truthiness of an optional rational (`if max_duration ...`):
`None` and `0` are falsy. -/
def truthyRat (x : Option ℚ) : Bool :=
  match x with
  | none => false
  | some v => decide (v ≠ 0)

/-- The configuration captured by the `wrapper` closure after `retry(...)`
resolved its arguments: `max_retries`, `delay`, `backoff`, `exceptions`,
`max_duration`, `alert_threshold`. (`log_func` is modelled by trace events.) -/
structure Policy where
  max_retries : Int
  delay : ℚ
  backoff : ℚ
  exceptions : List ExcKind
  max_duration : Option ℚ
  alert_threshold : Option Int
  deriving DecidableEq, Repr

/-- The body of `retry(...)` up to `def decorator`: resolve `max_retries`
and `delay` against the global config via Python `or` (falsy means absent),
take every other parameter verbatim, and capture the result for the
wrapper's lifetime. -/
def retryResolve (cfg : RetryConfig) (max_retries : Option Int) (delay : Option ℚ)
    (backoff : ℚ) (exceptions : List ExcKind) (max_duration : Option ℚ)
    (alert_threshold : Option Int) : Policy :=
  { max_retries := orDefaultInt max_retries cfg.max_retries
    delay := orDefaultRat delay cfg.delay
    backoff := backoff
    exceptions := exceptions
    max_duration := max_duration
    alert_threshold := alert_threshold }

/-- Observable events of one call of the wrapped function: an invocation of
the wrapped operation (with its 1-based attempt number), the three `log_func`
messages (alert warning, max-duration termination notice, per-retry
informational message), and a `time.sleep(d)` call. -/
inductive Event where
  | invoke (attempt : Nat)
  | warn
  | durStop
  | retryMsg (attempt : Nat) (e : PyErr)
  | sleepEv (d : ℚ)
  deriving DecidableEq, Repr

/-- Result of one call of the wrapped function: a returned value
(`ok none` is Python's implicit `None`) or a raised exception. -/
inductive Outcome (V : Type) where
  | ok (v : Option V)
  | raised (e : PyErr)
  deriving DecidableEq, Repr

/-- The events emitted by `if alert_threshold and attempt >= alert_threshold:
log_func(...)`: one warning message when the threshold is truthy and crossed,
nothing otherwise. -/
def warnEvents (p : Policy) (attempt : Nat) : List Event :=
  if truthyInt p.alert_threshold && decide (p.alert_threshold.getD 0 ≤ (attempt : Int)) then
    [Event.warn]
  else
    []

/-- The guard `max_duration and (time.time() - start_time) >= max_duration`:
returns whether the guard fired together with the next `time.time()` read
index (the clock is read exactly when `max_duration` is truthy, by
short-circuit evaluation). -/
def durationStep (p : Policy) (clock : Nat → ℚ) (startTime : ℚ) (tIdx : Nat) :
    Bool × Nat :=
  match p.max_duration with
  | none => (false, tIdx)
  | some md => if md = 0 then (false, tIdx) else (decide (md ≤ clock tIdx - startTime), tIdx + 1)

/-- The `for attempt in range(1, max_retries + 1)` loop of `wrapper`, as a
recursion on the number of remaining iterations. State: remaining
iterations, current attempt number, `current_delay`, next `time.time()` read
index. When the range is exhausted the function body falls through and
returns Python `None`. Each iteration: call the operation; on success return
its value; on a failure not matched by `exceptions`, propagate it; on a
caught failure: re-raise if `attempt == max_retries`, else emit the alert
warning when configured and crossed, then stop with the termination message
when the duration guard fires, else log the retry message, sleep
`current_delay`, multiply `current_delay` by `backoff`, and continue. -/
def loopIter {V : Type} (p : Policy) (op : Nat → Except PyErr V) (clock : Nat → ℚ)
    (startTime : ℚ) : Nat → Nat → ℚ → Nat → List Event × Outcome V
  | 0, _, _, _ => ([], Outcome.ok none)
  | r + 1, attempt, currentDelay, tIdx =>
    match op attempt with
    | .ok v => ([Event.invoke attempt], Outcome.ok (some v))
    | .error e =>
      if isCaught p.exceptions e then
        if (attempt : Int) = p.max_retries then
          ([Event.invoke attempt], Outcome.raised e)
        else
          let wEvs := warnEvents p attempt
          let ds := durationStep p clock startTime tIdx
          if ds.1 then
            (Event.invoke attempt :: wEvs ++ [Event.durStop], Outcome.raised e)
          else
            let rest := loopIter p op clock startTime r (attempt + 1)
              (currentDelay * p.backoff) ds.2
            (Event.invoke attempt :: wEvs ++
              Event.retryMsg attempt e :: Event.sleepEv currentDelay :: rest.1, rest.2)
      else
        ([Event.invoke attempt], Outcome.raised e)

/-- One call of the `wrapper` closure: read `start_time`, set
`current_delay = delay`, and run the attempt loop; the loop executes
`max(max_retries, 0)` iterations with attempt numbers starting at 1. -/
def wrapperRun {V : Type} (p : Policy) (op : Nat → Except PyErr V) (clock : Nat → ℚ) :
    List Event × Outcome V :=
  loopIter p op clock (clock 0) p.max_retries.toNat 1 p.delay 1

/-- Calling an already-constructed wrapper in a process whose global
`DEFAULT_RETRY_CONFIG` currently holds `_current`: the closure body never
reads the global config, so the current global state is ignored. -/
def callWrapper {V : Type} (_current : RetryConfig) (p : Policy)
    (op : Nat → Except PyErr V) (clock : Nat → ℚ) : List Event × Outcome V :=
  wrapperRun p op clock

/-- Is this event an invocation of the wrapped operation? -/
def isInvokeEv : Event → Bool
  | .invoke _ => true
  | _ => false

/-- Number of invocations of the wrapped operation in a trace. -/
def countInvokes (tr : List Event) : Nat :=
  tr.countP isInvokeEv

/-- The durations of the `time.sleep` calls in a trace, in order. -/
def sleepsOf (tr : List Event) : List ℚ :=
  tr.filterMap (fun ev => match ev with | .sleepEv d => some d | _ => none)

/-- Number of `time.sleep` calls in a trace. -/
def countSleeps (tr : List Event) : Nat :=
  (sleepsOf tr).length

/-- Is this event a warning message? -/
def isWarnEv : Event → Bool
  | .warn => true
  | _ => false

/-- Number of alert warning messages in a trace. -/
def countWarns (tr : List Event) : Nat :=
  tr.countP isWarnEv

/-- Is this event a `log_func` message (warning, termination notice, or
retry message)? -/
def isLogEv : Event → Bool
  | .warn => true
  | .durStop => true
  | .retryMsg _ _ => true
  | _ => false

/-- Number of `log_func` messages in a trace. -/
def countLogs (tr : List Event) : Nat :=
  tr.countP isLogEv

/-- The successive `current_delay` values slept through: `c`, `c*b`,
`c*b^2`, ... (`n` terms). -/
def geomSeq (c b : ℚ) : Nat → List ℚ
  | 0 => []
  | n + 1 => c :: geomSeq (c * b) b n

/-- The expected full trace of a call whose operation fails with a caught
error on every attempt, for a policy with falsy `max_duration`: `r`
remaining attempts starting at attempt `a` with `current_delay = c`. -/
def allFailTrace (p : Policy) (err : Nat → PyErr) : Nat → Nat → ℚ → List Event
  | 0, _, _ => []
  | 1, a, _ => [Event.invoke a]
  | r + 2, a, c =>
    Event.invoke a :: warnEvents p a ++
      Event.retryMsg a (err a) :: Event.sleepEv c ::
        allFailTrace p err (r + 1) (a + 1) (c * p.backoff)

/-! ### Helper lemmas -/

/-- When `max_duration` is falsy (absent or zero), the duration guard never
fires and the clock is not read. -/
lemma durationStep_of_falsy {p : Policy} (clock : Nat → ℚ) (st : ℚ) (t : Nat)
    (hmd : truthyRat p.max_duration = false) :
    durationStep p clock st t = (false, t) := by
  unfold durationStep
  cases h : p.max_duration with
  | none => rfl
  | some md =>
    simp [truthyRat, h] at hmd
    simp [hmd]

/-- One loop iteration, success case: return the operation's value. -/
lemma loopIter_step_ok {V : Type} (p : Policy) (op : Nat → Except PyErr V)
    (clock : Nat → ℚ) (st : ℚ) (r a : Nat) (c : ℚ) (t : Nat) (v : V)
    (hop : op a = .ok v) :
    loopIter p op clock st (r + 1) a c t = ([Event.invoke a], Outcome.ok (some v)) := by
  rw [loopIter, hop]

/-- One loop iteration, uncaught-failure case: the error propagates at once. -/
lemma loopIter_step_uncaught {V : Type} (p : Policy) (op : Nat → Except PyErr V)
    (clock : Nat → ℚ) (st : ℚ) (r a : Nat) (c : ℚ) (t : Nat) (e : PyErr)
    (hop : op a = .error e) (hc : isCaught p.exceptions e = false) :
    loopIter p op clock st (r + 1) a c t = ([Event.invoke a], Outcome.raised e) := by
  rw [loopIter, hop]
  simp [hc]

/-- One loop iteration, caught failure on the final attempt
(`attempt == max_retries`): re-raise the error unchanged. -/
lemma loopIter_step_exhaust {V : Type} (p : Policy) (op : Nat → Except PyErr V)
    (clock : Nat → ℚ) (st : ℚ) (r a : Nat) (c : ℚ) (t : Nat) (e : PyErr)
    (hop : op a = .error e) (hc : isCaught p.exceptions e = true)
    (hlast : (a : Int) = p.max_retries) :
    loopIter p op clock st (r + 1) a c t = ([Event.invoke a], Outcome.raised e) := by
  rw [loopIter, hop]
  simp [hc, hlast]

/-- One loop iteration, caught failure before the final attempt with the
duration guard firing: emit the alert warning if configured and crossed,
then the termination message, and re-raise the error unchanged. -/
lemma loopIter_step_durStop {V : Type} (p : Policy) (op : Nat → Except PyErr V)
    (clock : Nat → ℚ) (st : ℚ) (r a : Nat) (c : ℚ) (t : Nat) (e : PyErr)
    (hop : op a = .error e) (hc : isCaught p.exceptions e = true)
    (hne : ¬ ((a : Int) = p.max_retries))
    (hds : (durationStep p clock st t).1 = true) :
    loopIter p op clock st (r + 1) a c t
      = (Event.invoke a :: warnEvents p a ++ [Event.durStop], Outcome.raised e) := by
  rw [loopIter, hop]
  simp [hc, hne, hds]

/-- One loop iteration, caught failure before the final attempt with the
duration guard not firing: emit the alert warning if configured and crossed,
then the retry message, sleep `current_delay`, and continue with the delay
multiplied by `backoff`. -/
lemma loopIter_step_retry {V : Type} (p : Policy) (op : Nat → Except PyErr V)
    (clock : Nat → ℚ) (st : ℚ) (r a : Nat) (c : ℚ) (t t' : Nat) (e : PyErr)
    (hop : op a = .error e) (hc : isCaught p.exceptions e = true)
    (hne : ¬ ((a : Int) = p.max_retries))
    (hds : durationStep p clock st t = (false, t')) :
    loopIter p op clock st (r + 1) a c t
      = (Event.invoke a :: warnEvents p a ++
          Event.retryMsg a e :: Event.sleepEv c ::
            (loopIter p op clock st r (a + 1) (c * p.backoff) t').1,
         (loopIter p op clock st r (a + 1) (c * p.backoff) t').2) := by
  rw [loopIter, hop]
  simp [hc, hne, hds]

/-- The alert branch emits no operation invocation. -/
lemma countInvokes_warnEvents (p : Policy) (a : Nat) :
    countInvokes (warnEvents p a) = 0 := by
  unfold warnEvents
  split <;> simp [countInvokes, isInvokeEv]

/-- The alert branch emits no sleep. -/
lemma sleepsOf_warnEvents (p : Policy) (a : Nat) :
    sleepsOf (warnEvents p a) = [] := by
  unfold warnEvents
  split <;> simp [sleepsOf]

/-- The attempt loop on an operation that fails with a caught error on every
attempt, for a policy with falsy `max_duration`: with `m` retries remaining
after the current attempt `a` (so that attempt `a + m` is the final one),
the loop produces exactly the all-fail trace and re-raises the error of the
final attempt. -/
lemma loopIter_allFail {V : Type} (p : Policy) (op : Nat → Except PyErr V)
    (clock : Nat → ℚ) (st : ℚ) (err : Nat → PyErr)
    (hop : ∀ i, op i = .error (err i))
    (hcaught : ∀ i, isCaught p.exceptions (err i) = true)
    (hmd : truthyRat p.max_duration = false) :
    ∀ (m a : Nat) (c : ℚ) (t : Nat), (a : Int) + (m : Int) = p.max_retries →
      loopIter p op clock st (m + 1) a c t
        = (allFailTrace p err (m + 1) a c, Outcome.raised (err (a + m))) := by
  intro m
  induction m with
  | zero =>
    intro a c t hinv
    have ha : (a : Int) = p.max_retries := by omega
    rw [loopIter_step_exhaust p op clock st 0 a c t (err a) (hop a) (hcaught a) ha]
    rfl
  | succ m ih =>
    intro a c t hinv
    have hne : ¬ ((a : Int) = p.max_retries) := by omega
    have hrec := ih (a + 1) (c * p.backoff) t (by push_cast at hinv ⊢; omega)
    rw [show a + 1 + m = a + (m + 1) from by omega] at hrec
    have hds := durationStep_of_falsy (p := p) clock st t hmd
    rw [loopIter_step_retry p op clock st (m + 1) a c t t (err a) (hop a) (hcaught a) hne hds]
    rw [hrec]
    rfl

/-- One call of the wrapper on an always-failing (caught) operation with
falsy `max_duration` and `max_retries = n ≥ 1`: the full trace is the
all-fail trace and the error of attempt `n` is re-raised. -/
lemma wrapperRun_allFail {V : Type} (p : Policy) (op : Nat → Except PyErr V)
    (clock : Nat → ℚ) (err : Nat → PyErr) (n : Nat)
    (hmr : p.max_retries = (n : Int)) (hn : 1 ≤ n)
    (hop : ∀ i, op i = .error (err i))
    (hcaught : ∀ i, isCaught p.exceptions (err i) = true)
    (hmd : truthyRat p.max_duration = false) :
    wrapperRun p op clock
      = (allFailTrace p err n 1 p.delay, Outcome.raised (err n)) := by
  unfold wrapperRun
  have htn : p.max_retries.toNat = n := by omega
  rw [htn]
  obtain ⟨m, rfl⟩ : ∃ m, n = m + 1 := ⟨n - 1, by omega⟩
  have h1m : (1 : Int) + (m : Int) = p.max_retries := by
    rw [hmr]; push_cast; omega
  rw [loopIter_allFail p op clock (clock 0) err hop hcaught hmd m 1 p.delay 1 h1m]
  rw [show 1 + m = m + 1 from by omega]

/-- The all-fail trace with `m + 1` attempts contains `m + 1` invocations. -/
lemma countInvokes_allFailTrace (p : Policy) (err : Nat → PyErr) :
    ∀ m a c, countInvokes (allFailTrace p err (m + 1) a c) = m + 1 := by
  intro m
  induction m with
  | zero => intro a c; rfl
  | succ m ih =>
    intro a c
    show countInvokes (Event.invoke a :: warnEvents p a ++
      Event.retryMsg a (err a) :: Event.sleepEv c ::
        allFailTrace p err (m + 1) (a + 1) (c * p.backoff)) = m + 2
    unfold countInvokes at ih ⊢
    simp only [List.countP_cons, List.countP_append, List.cons_append]
    rw [show List.countP isInvokeEv (warnEvents p a)
          = countInvokes (warnEvents p a) from rfl,
      countInvokes_warnEvents, ih]
    simp [isInvokeEv]

/-- The sleeps of the all-fail trace with `m + 1` attempts are the geometric
sequence `c, c*backoff, ...` of length `m`. -/
lemma sleepsOf_allFailTrace (p : Policy) (err : Nat → PyErr) :
    ∀ m a c, sleepsOf (allFailTrace p err (m + 1) a c) = geomSeq c p.backoff m := by
  intro m
  induction m with
  | zero => intro a c; rfl
  | succ m ih =>
    intro a c
    show sleepsOf (Event.invoke a :: warnEvents p a ++
      Event.retryMsg a (err a) :: Event.sleepEv c ::
        allFailTrace p err (m + 1) (a + 1) (c * p.backoff)) = geomSeq c p.backoff (m + 1)
    unfold sleepsOf at ih ⊢
    simp only [List.cons_append, List.filterMap_cons, List.filterMap_append]
    rw [show List.filterMap _ (warnEvents p a) = sleepsOf (warnEvents p a) from rfl,
      sleepsOf_warnEvents, ih]
    rfl

/-- The geometric delay sequence in closed form. -/
lemma geomSeq_eq_map (b : ℚ) : ∀ m c, geomSeq c b m = (List.range m).map (fun i => c * b ^ i) := by
  intro m
  induction m with
  | zero => intro c; rfl
  | succ m ih =>
    intro c
    rw [geomSeq, ih (c * b), List.range_succ_eq_map, List.map_cons, List.map_map,
      pow_zero, mul_one]
    congr 1
    apply List.map_congr_left
    intro i _
    simp only [Function.comp_apply, pow_succ]
    ring

/-- The alert branch contains no `sleep` and its events are not invocations,
so the last element of `x :: warnEvents ++ l` is the last element of `l`
when `l` is nonempty. -/
lemma getLast?_invoke_warn_cons {p : Policy} {a : Nat} {x : Event} {l : List Event}
    (hl : l ≠ []) :
    (x :: (warnEvents p a ++ l)).getLast? = l.getLast? := by
  rw [show x :: (warnEvents p a ++ l) = (x :: warnEvents p a) ++ l from rfl]
  exact (x :: warnEvents p a).getLast?_append_of_ne_nil hl

/-- The attempt loop on an operation that fails with caught errors on
attempts `a, ..., a + j - 1` and succeeds on attempt `a + j`, for a policy
with falsy `max_duration`, provided the loop has enough iterations left
(`j < r`) and the failing attempts are not the final one
(`a + j ≤ max_retries`): the loop returns the success value, invokes the
operation `j + 1` times, sleeps `j` times, and emits nothing after the
final, successful invocation. -/
lemma loopIter_failPrefixOk {V : Type} (p : Policy) (op : Nat → Except PyErr V)
    (clock : Nat → ℚ) (st : ℚ) (err : Nat → PyErr) (v : V)
    (hmd : truthyRat p.max_duration = false) :
    ∀ (j a : Nat) (r : Nat) (c : ℚ) (t : Nat), j < r →
      (a : Int) + (j : Int) ≤ p.max_retries →
      (∀ i, i < j → op (a + i) = .error (err (a + i))) →
      (∀ i, i < j → isCaught p.exceptions (err (a + i)) = true) →
      op (a + j) = .ok v →
      (loopIter p op clock st r a c t).2 = Outcome.ok (some v) ∧
      countInvokes (loopIter p op clock st r a c t).1 = j + 1 ∧
      countSleeps (loopIter p op clock st r a c t).1 = j ∧
      (loopIter p op clock st r a c t).1.getLast? = some (Event.invoke (a + j)) := by
  intro j
  induction j with
  | zero =>
    intro a r c t hjr _ _ _ hok
    obtain ⟨r', rfl⟩ : ∃ r', r = r' + 1 := ⟨r - 1, by omega⟩
    rw [Nat.add_zero] at hok
    rw [loopIter_step_ok p op clock st r' a c t v hok]
    refine ⟨rfl, rfl, rfl, ?_⟩
    simp
  | succ j ih =>
    intro a r c t hjr hle hfail hcaught hok
    obtain ⟨r', rfl⟩ : ∃ r', r = r' + 1 := ⟨r - 1, by omega⟩
    have hne : ¬ ((a : Int) = p.max_retries) := by
      push_cast at hle; omega
    have hfa : op a = .error (err a) := by
      have := hfail 0 (by omega); simpa using this
    have hca : isCaught p.exceptions (err a) = true := by
      have := hcaught 0 (by omega); simpa using this
    have hrec := ih (a + 1) r' (c * p.backoff) t (by omega)
      (by push_cast at hle ⊢; omega)
      (fun i hi => by
        have := hfail (i + 1) (by omega)
        rw [show a + (i + 1) = a + 1 + i from by omega] at this
        exact this)
      (fun i hi => by
        have := hcaught (i + 1) (by omega)
        rw [show a + (i + 1) = a + 1 + i from by omega] at this
        exact this)
      (by rw [show a + 1 + j = a + (j + 1) from by omega]; exact hok)
    obtain ⟨ho, hinv, hsl, hlast⟩ := hrec
    have hnil : (loopIter p op clock st r' (a + 1) (c * p.backoff) t).1 ≠ [] := by
      intro h
      rw [h] at hinv
      simp [countInvokes] at hinv
    have hds := durationStep_of_falsy (p := p) clock st t hmd
    rw [loopIter_step_retry p op clock st r' a c t t (err a) hfa hca hne hds]
    refine ⟨by simpa using ho, ?_, ?_, ?_⟩
    · simp only [countInvokes, List.countP_cons, List.countP_append,
        List.cons_append] at hinv ⊢
      rw [show List.countP isInvokeEv (warnEvents p a)
            = countInvokes (warnEvents p a) from rfl, countInvokes_warnEvents]
      simp [isInvokeEv, hinv]
    · simp only [countSleeps, sleepsOf, List.filterMap_cons, List.filterMap_append,
        List.cons_append] at hsl ⊢
      rw [show List.filterMap (fun ev => match ev with
            | Event.sleepEv d => some d | _ => none) (warnEvents p a)
            = sleepsOf (warnEvents p a) from rfl, sleepsOf_warnEvents]
      simp only [List.nil_append, List.length_cons]
      omega
    · simp only [List.cons_append]
      rw [getLast?_invoke_warn_cons (by simp [hnil])]
      simp only [List.getLast?_cons_cons]
      rw [show a + (j + 1) = a + 1 + j from by omega]
      rw [← hlast]
      cases h : (loopIter p op clock st r' (a + 1) (c * p.backoff) t).1 with
      | nil => exact absurd h hnil
      | cons x xs => simp

/-- The attempt loop behaves identically under `max_duration = 0` and
`max_duration` absent: `0` is falsy, so the duration guard is skipped
entirely. -/
lemma loopIter_md_zero {V : Type} (p : Policy) (op : Nat → Except PyErr V)
    (clock : Nat → ℚ) (st : ℚ) :
    ∀ (r a : Nat) (c : ℚ) (t : Nat),
      loopIter { p with max_duration := some 0 } op clock st r a c t
        = loopIter { p with max_duration := none } op clock st r a c t := by
  intro r
  induction r with
  | zero => intro a c t; rfl
  | succ r ih =>
    intro a c t
    cases hop : op a with
    | ok v =>
      rw [loopIter_step_ok { p with max_duration := some 0 } op clock st r a c t v hop,
        loopIter_step_ok { p with max_duration := none } op clock st r a c t v hop]
    | error e =>
      by_cases hc : isCaught p.exceptions e = true
      · by_cases hl : (a : Int) = p.max_retries
        · rw [loopIter_step_exhaust { p with max_duration := some 0 }
              op clock st r a c t e hop hc hl,
            loopIter_step_exhaust { p with max_duration := none }
              op clock st r a c t e hop hc hl]
        · have hds1 : durationStep { p with max_duration := some 0 } clock st t
              = (false, t) :=
            durationStep_of_falsy clock st t (by simp [truthyRat])
          have hds2 : durationStep { p with max_duration := none } clock st t
              = (false, t) :=
            durationStep_of_falsy clock st t rfl
          rw [loopIter_step_retry { p with max_duration := some 0 }
              op clock st r a c t t e hop hc hl hds1,
            loopIter_step_retry { p with max_duration := none }
              op clock st r a c t t e hop hc hl hds2, ih]
          rfl
      · have hc' : isCaught p.exceptions e = false := by
          simpa using hc
        rw [loopIter_step_uncaught { p with max_duration := some 0 }
            op clock st r a c t e hop hc',
          loopIter_step_uncaught { p with max_duration := none }
            op clock st r a c t e hop hc']

/-- The attempt loop behaves identically under `alert_threshold = 0` and
`alert_threshold` absent: `0` is falsy, so the alert branch is skipped
entirely. -/
lemma loopIter_alert_zero {V : Type} (p : Policy) (op : Nat → Except PyErr V)
    (clock : Nat → ℚ) (st : ℚ) :
    ∀ (r a : Nat) (c : ℚ) (t : Nat),
      loopIter { p with alert_threshold := some 0 } op clock st r a c t
        = loopIter { p with alert_threshold := none } op clock st r a c t := by
  intro r
  induction r with
  | zero => intro a c t; rfl
  | succ r ih =>
    intro a c t
    cases hop : op a with
    | ok v =>
      rw [loopIter_step_ok { p with alert_threshold := some 0 } op clock st r a c t v hop,
        loopIter_step_ok { p with alert_threshold := none } op clock st r a c t v hop]
    | error e =>
      by_cases hc : isCaught p.exceptions e = true
      · by_cases hl : (a : Int) = p.max_retries
        · rw [loopIter_step_exhaust { p with alert_threshold := some 0 }
              op clock st r a c t e hop hc hl,
            loopIter_step_exhaust { p with alert_threshold := none }
              op clock st r a c t e hop hc hl]
        · cases hds : durationStep p clock st t with
          | mk fired tNext =>
            cases fired with
            | true =>
              rw [loopIter_step_durStop { p with alert_threshold := some 0 }
                  op clock st r a c t e hop hc hl (by
                  rw [show durationStep { p with alert_threshold := some 0 } clock st t
                        = durationStep p clock st t from rfl, hds]),
                loopIter_step_durStop { p with alert_threshold := none }
                  op clock st r a c t e hop hc hl (by
                  rw [show durationStep { p with alert_threshold := none } clock st t
                        = durationStep p clock st t from rfl, hds])]
              rfl
            | false =>
              rw [loopIter_step_retry { p with alert_threshold := some 0 }
                  op clock st r a c t tNext e hop hc hl (by
                  rw [show durationStep { p with alert_threshold := some 0 } clock st t
                        = durationStep p clock st t from rfl, hds]),
                loopIter_step_retry { p with alert_threshold := none }
                  op clock st r a c t tNext e hop hc hl (by
                  rw [show durationStep { p with alert_threshold := none } clock st t
                        = durationStep p clock st t from rfl, hds]), ih]
              rfl
      · have hc' : isCaught p.exceptions e = false := by
          simpa using hc
        rw [loopIter_step_uncaught { p with alert_threshold := some 0 }
            op clock st r a c t e hop hc',
          loopIter_step_uncaught { p with alert_threshold := none }
            op clock st r a c t e hop hc']

/-! ### Claim theorems -/

/-- C1: for a wrapper with resolved `max_retries = n ≥ 1`, `max_duration`
unset, and an operation failing with a caught (retryable) error on every
attempt, the wrapped call invokes the operation exactly `n` times, sleeps
exactly `n - 1` times with the `i`-th sleep lasting `delay * backoff^(i-1)`,
and re-raises the very error of the `n`-th attempt unchanged. -/
theorem retry_allFail_exhausts_and_reraises {V : Type} (p : Policy) (n : Nat)
    (op : Nat → Except PyErr V) (err : Nat → PyErr) (clock : Nat → ℚ)
    (hmr : p.max_retries = (n : Int)) (hn : 1 ≤ n)
    (hmd : p.max_duration = none)
    (hop : ∀ i, op i = .error (err i))
    (hcaught : ∀ i, isCaught p.exceptions (err i) = true) :
    countInvokes (wrapperRun p op clock).1 = n ∧
    sleepsOf (wrapperRun p op clock).1
      = (List.range (n - 1)).map (fun i => p.delay * p.backoff ^ i) ∧
    (wrapperRun p op clock).2 = Outcome.raised (err n) := by
  have h := wrapperRun_allFail p op clock err n hmr hn hop hcaught (by rw [hmd]; rfl)
  rw [h]
  obtain ⟨m, rfl⟩ : ∃ m, n = m + 1 := ⟨n - 1, by omega⟩
  refine ⟨countInvokes_allFailTrace p err m 1 p.delay, ?_, rfl⟩
  rw [sleepsOf_allFailTrace p err m 1 p.delay, geomSeq_eq_map]
  simp

/-- Witness for C1 at `max_retries = 3`, `delay = 1`, `backoff = 2`. -/
theorem retry_allFail_exhausts_and_reraises_witness :
    countInvokes (wrapperRun (V := Nat) ⟨3, 1, 2, defaultExceptions, none, none⟩
        (fun i => Except.error ⟨ExcKind.valueError, i⟩) (fun _ => 0)).1 = 3 ∧
    sleepsOf (wrapperRun (V := Nat) ⟨3, 1, 2, defaultExceptions, none, none⟩
        (fun i => Except.error ⟨ExcKind.valueError, i⟩) (fun _ => 0)).1
      = (List.range 2).map (fun i => (1 : ℚ) * 2 ^ i) ∧
    (wrapperRun (V := Nat) ⟨3, 1, 2, defaultExceptions, none, none⟩
        (fun i => Except.error ⟨ExcKind.valueError, i⟩) (fun _ => 0)).2
      = Outcome.raised ⟨ExcKind.valueError, 3⟩ :=
  retry_allFail_exhausts_and_reraises ⟨3, 1, 2, defaultExceptions, none, none⟩ 3
    (fun i => Except.error ⟨ExcKind.valueError, i⟩) (fun i => ⟨ExcKind.valueError, i⟩)
    (fun _ => 0) rfl (by decide) rfl (fun _ => rfl) (fun _ => rfl)

/-- C2: for a wrapper with resolved `max_retries = n` and `max_duration`
unset, and an operation failing with caught errors on attempts `1..k-1`
and succeeding with `v` on attempt `k ≤ n`: the wrapped call returns
exactly `v`, invokes the operation exactly `k` times, sleeps exactly
`k - 1` times, and the final trace event is the `k`-th invocation itself
(no sleep and no reporter message on the successful attempt). -/
theorem retry_success_on_attempt_k {V : Type} (p : Policy) (n k : Nat) (v : V)
    (op : Nat → Except PyErr V) (err : Nat → PyErr) (clock : Nat → ℚ)
    (hmr : p.max_retries = (n : Int)) (hmd : p.max_duration = none)
    (hk1 : 1 ≤ k) (hkn : k ≤ n)
    (hfail : ∀ i, 1 ≤ i → i < k → op i = .error (err i))
    (hcaught : ∀ i, 1 ≤ i → i < k → isCaught p.exceptions (err i) = true)
    (hok : op k = .ok v) :
    (wrapperRun p op clock).2 = Outcome.ok (some v) ∧
    countInvokes (wrapperRun p op clock).1 = k ∧
    countSleeps (wrapperRun p op clock).1 = k - 1 ∧
    (wrapperRun p op clock).1.getLast? = some (Event.invoke k) := by
  have hrn : p.max_retries.toNat = n := by omega
  have h := loopIter_failPrefixOk p op clock (clock 0) err v (by rw [hmd]; rfl)
    (k - 1) 1 n p.delay 1
    (by omega) (by omega)
    (fun i hi => hfail (1 + i) (by omega) (by omega))
    (fun i hi => hcaught (1 + i) (by omega) (by omega))
    (by rw [show 1 + (k - 1) = k from by omega]; exact hok)
  rw [show 1 + (k - 1) = k from by omega] at h
  obtain ⟨h1, h2, h3, h4⟩ := h
  unfold wrapperRun
  rw [hrn]
  exact ⟨h1, by rw [h2]; omega, h3, h4⟩

/-- Witness for C2: success with value 42 on attempt 2 of 3. -/
theorem retry_success_on_attempt_k_witness :
    (wrapperRun (V := Nat) ⟨3, 1, 2, defaultExceptions, none, none⟩
        (fun i => if i = 2 then Except.ok 42 else Except.error ⟨ExcKind.valueError, i⟩)
        (fun _ => 0)).2 = Outcome.ok (some 42) ∧
    countInvokes (wrapperRun (V := Nat) ⟨3, 1, 2, defaultExceptions, none, none⟩
        (fun i => if i = 2 then Except.ok 42 else Except.error ⟨ExcKind.valueError, i⟩)
        (fun _ => 0)).1 = 2 ∧
    countSleeps (wrapperRun (V := Nat) ⟨3, 1, 2, defaultExceptions, none, none⟩
        (fun i => if i = 2 then Except.ok 42 else Except.error ⟨ExcKind.valueError, i⟩)
        (fun _ => 0)).1 = 1 ∧
    (wrapperRun (V := Nat) ⟨3, 1, 2, defaultExceptions, none, none⟩
        (fun i => if i = 2 then Except.ok 42 else Except.error ⟨ExcKind.valueError, i⟩)
        (fun _ => 0)).1.getLast? = some (Event.invoke 2) :=
  retry_success_on_attempt_k ⟨3, 1, 2, defaultExceptions, none, none⟩ 3 2 42
    (fun i => if i = 2 then Except.ok 42 else Except.error ⟨ExcKind.valueError, i⟩)
    (fun i => ⟨ExcKind.valueError, i⟩) (fun _ => 0) rfl rfl (by decide) (by decide)
    (fun i h1 h2 => by interval_cases i; rfl)
    (fun i h1 h2 => by interval_cases i; rfl)
    rfl

/-- C3: a failure whose class is not matched by the configured `exceptions`
tuple propagates immediately and untouched on its first occurrence: the
operation is invoked exactly once and no sleep and no `log_func` message
occur. (Stated for wrappers satisfying the spec's `maxRetries ≥ 1`
invariant, so that the first attempt happens at all.) -/
theorem retry_nonretryable_propagates_immediately {V : Type} (p : Policy)
    (op : Nat → Except PyErr V) (clock : Nat → ℚ) (e : PyErr)
    (hmr : 1 ≤ p.max_retries)
    (hop : op 1 = .error e)
    (hnc : isCaught p.exceptions e = false) :
    wrapperRun p op clock = ([Event.invoke 1], Outcome.raised e) ∧
    countInvokes (wrapperRun p op clock).1 = 1 ∧
    countSleeps (wrapperRun p op clock).1 = 0 ∧
    countLogs (wrapperRun p op clock).1 = 0 := by
  have h : wrapperRun p op clock = ([Event.invoke 1], Outcome.raised e) := by
    unfold wrapperRun
    obtain ⟨r, hr⟩ : ∃ r, p.max_retries.toNat = r + 1 :=
      ⟨p.max_retries.toNat - 1, by omega⟩
    rw [hr, loopIter_step_uncaught p op clock (clock 0) r 1 p.delay 1 e hop hnc]
  rw [h]
  exact ⟨rfl, rfl, rfl, rfl⟩

/-- Witness for C3: a `KeyError` under a policy that only retries
`ValueError`. -/
theorem retry_nonretryable_propagates_immediately_witness :
    wrapperRun (V := Nat) ⟨3, 1, 2, [ExcKind.valueError], none, none⟩
        (fun i => Except.error ⟨ExcKind.keyError, i⟩) (fun _ => 0)
      = ([Event.invoke 1], Outcome.raised ⟨ExcKind.keyError, 1⟩) ∧
    countInvokes (wrapperRun (V := Nat) ⟨3, 1, 2, [ExcKind.valueError], none, none⟩
        (fun i => Except.error ⟨ExcKind.keyError, i⟩) (fun _ => 0)).1 = 1 ∧
    countSleeps (wrapperRun (V := Nat) ⟨3, 1, 2, [ExcKind.valueError], none, none⟩
        (fun i => Except.error ⟨ExcKind.keyError, i⟩) (fun _ => 0)).1 = 0 ∧
    countLogs (wrapperRun (V := Nat) ⟨3, 1, 2, [ExcKind.valueError], none, none⟩
        (fun i => Except.error ⟨ExcKind.keyError, i⟩) (fun _ => 0)).1 = 0 :=
  retry_nonretryable_propagates_immediately ⟨3, 1, 2, [ExcKind.valueError], none, none⟩
    (fun i => Except.error ⟨ExcKind.keyError, i⟩) (fun _ => 0) ⟨ExcKind.keyError, 1⟩
    (by decide) rfl rfl

/-- C4: at `retry(...)` construction, a falsy `max_retries` / `delay`
argument (absent or explicit `0`) resolves to the corresponding field of the
global config passed to the resolver (the config read at construction time),
while a non-falsy argument is taken verbatim. -/
theorem retry_falsy_overrides_use_defaults (cfg : RetryConfig) (b : ℚ)
    (excs : List ExcKind) (md : Option ℚ) (ath : Option Int) :
    ((retryResolve cfg none none b excs md ath).max_retries = cfg.max_retries ∧
      (retryResolve cfg none none b excs md ath).delay = cfg.delay) ∧
    ((retryResolve cfg (some 0) (some 0) b excs md ath).max_retries = cfg.max_retries ∧
      (retryResolve cfg (some 0) (some 0) b excs md ath).delay = cfg.delay) ∧
    (∀ mr : Int, mr ≠ 0 → ∀ d : ℚ, d ≠ 0 →
      (retryResolve cfg (some mr) (some d) b excs md ath).max_retries = mr ∧
      (retryResolve cfg (some mr) (some d) b excs md ath).delay = d) := by
  refine ⟨⟨rfl, rfl⟩, ⟨?_, ?_⟩, ?_⟩
  · simp [retryResolve, orDefaultInt]
  · simp [retryResolve, orDefaultRat]
  · intro mr hmr d hd
    exact ⟨by simp [retryResolve, orDefaultInt, hmr], by simp [retryResolve, orDefaultRat, hd]⟩

/-- Witness for C4 at config `{max_retries := 5, delay := 1/2}` with the
non-falsy overrides `7` and `3`. -/
theorem retry_falsy_overrides_use_defaults_witness :
    (retryResolve ⟨5, 1/2⟩ (some 7) (some 3) 2 defaultExceptions none none).max_retries = 7 ∧
    (retryResolve ⟨5, 1/2⟩ (some 7) (some 3) 2 defaultExceptions none none).delay = 3 :=
  (retry_falsy_overrides_use_defaults ⟨5, 1/2⟩ 2 defaultExceptions none none).2.2
    7 (by decide) 3 (by decide)

/-- C5: the global config is consulted exactly once, at construction: a
wrapper whose policy was resolved against config `cfg` behaves identically
whether the process-wide config has since been overwritten by `setup_retry`
or not — the wrapper closure never reads the global config. -/
theorem retry_policy_frozen_at_construction {V : Type} (cfg : RetryConfig)
    (mr2 : Int) (d2 : ℚ) (mr : Option Int) (d : Option ℚ) (b : ℚ)
    (excs : List ExcKind) (md : Option ℚ) (ath : Option Int)
    (op : Nat → Except PyErr V) (clock : Nat → ℚ) :
    callWrapper (setup_retry cfg mr2 d2) (retryResolve cfg mr d b excs md ath) op clock
      = callWrapper cfg (retryResolve cfg mr d b excs md ath) op clock :=
  rfl

/-- C6: with a truthy `max_duration`, a caught failure at an attempt below
`max_retries` whose elapsed time `clock t - startTime` has reached
`max_duration` makes the iteration emit (after the alert warning, when the
threshold is configured and crossed) the termination message and re-raise
the caught error unchanged: exactly one invocation, no sleep, no further
attempt. -/
theorem retry_duration_exceeded_stops_and_reraises {V : Type} (p : Policy)
    (op : Nat → Except PyErr V) (clock : Nat → ℚ) (st : ℚ) (r a : Nat) (c : ℚ)
    (t : Nat) (e : PyErr) (md : ℚ)
    (hmd : p.max_duration = some md) (hmd0 : md ≠ 0)
    (hop : op a = .error e) (hc : isCaught p.exceptions e = true)
    (ha : (a : Int) < p.max_retries)
    (helapsed : md ≤ clock t - st) :
    loopIter p op clock st (r + 1) a c t
      = (Event.invoke a :: warnEvents p a ++ [Event.durStop], Outcome.raised e) ∧
    countInvokes (loopIter p op clock st (r + 1) a c t).1 = 1 ∧
    countSleeps (loopIter p op clock st (r + 1) a c t).1 = 0 := by
  have hne : ¬ ((a : Int) = p.max_retries) := by omega
  have hds : (durationStep p clock st t).1 = true := by
    simp [durationStep, hmd, hmd0, helapsed]
  have h := loopIter_step_durStop p op clock st r a c t e hop hc hne hds
  refine ⟨h, ?_, ?_⟩
  · rw [h]
    simp only [countInvokes, List.countP_cons, List.countP_append, List.cons_append]
    rw [show List.countP isInvokeEv (warnEvents p a)
          = countInvokes (warnEvents p a) from rfl, countInvokes_warnEvents]
    simp [isInvokeEv]
  · rw [h]
    simp only [countSleeps, sleepsOf, List.filterMap_cons, List.filterMap_append,
      List.cons_append]
    rw [show List.filterMap (fun ev => match ev with
          | Event.sleepEv d => some d | _ => none) (warnEvents p a)
          = sleepsOf (warnEvents p a) from rfl, sleepsOf_warnEvents]
    rfl

/-- Witness for C6: `max_duration = 5` with elapsed time 10 at the check,
on attempt 1 of 5 with `alert_threshold = 1` crossed — the warning precedes
the termination message. -/
theorem retry_duration_exceeded_stops_and_reraises_witness :
    loopIter (V := Nat) ⟨5, 1, 2, defaultExceptions, some 5, some 1⟩
        (fun i => Except.error ⟨ExcKind.valueError, i⟩)
        (fun i => if i = 0 then 0 else 10) 0 (3 + 1) 1 1 1
      = ([Event.invoke 1, Event.warn, Event.durStop],
          Outcome.raised ⟨ExcKind.valueError, 1⟩) ∧
    countInvokes (loopIter (V := Nat) ⟨5, 1, 2, defaultExceptions, some 5, some 1⟩
        (fun i => Except.error ⟨ExcKind.valueError, i⟩)
        (fun i => if i = 0 then 0 else 10) 0 (3 + 1) 1 1 1).1 = 1 ∧
    countSleeps (loopIter (V := Nat) ⟨5, 1, 2, defaultExceptions, some 5, some 1⟩
        (fun i => Except.error ⟨ExcKind.valueError, i⟩)
        (fun i => if i = 0 then 0 else 10) 0 (3 + 1) 1 1 1).1 = 0 :=
  retry_duration_exceeded_stops_and_reraises ⟨5, 1, 2, defaultExceptions, some 5, some 1⟩
    (fun i => Except.error ⟨ExcKind.valueError, i⟩)
    (fun i => if i = 0 then 0 else 10) 0 3 1 1 1 ⟨ExcKind.valueError, 1⟩ 5
    rfl (by decide) rfl rfl (by decide) (by norm_num)

/-- C7 counterexample: with `alert_threshold = 2` and `max_retries = 2`, the
2nd attempt is a failed retryable attempt with `attemptNumber ≥
alert_threshold`, yet the trace contains no warning at all: the
`attempt == max_retries` branch re-raises before the alert check runs, so
"a warning is emitted on every failed retryable attempt whose attemptNumber
≥ alertThreshold" fails at the final attempt. -/
theorem retry_alert_no_warning_on_final_attempt_cex :
    wrapperRun (V := Nat) ⟨2, 1, 2, defaultExceptions, none, some 2⟩
        (fun i => Except.error ⟨ExcKind.valueError, i⟩) (fun _ => 0)
      = ([Event.invoke 1, Event.retryMsg 1 ⟨ExcKind.valueError, 1⟩, Event.sleepEv 1,
          Event.invoke 2],
         Outcome.raised ⟨ExcKind.valueError, 2⟩) ∧
    countWarns (wrapperRun (V := Nat) ⟨2, 1, 2, defaultExceptions, none, some 2⟩
        (fun i => Except.error ⟨ExcKind.valueError, i⟩) (fun _ => 0)).1 = 0 := by
  constructor
  · rfl
  · rfl

/-- C7 (amended): with a truthy `alert_threshold = th`, `max_duration`
unset, and an always-failing retryable operation under `max_retries = n ≥ 1`,
the wrapped call's trace is exactly the all-fail trace, in which the alert
branch runs precisely on the failed attempts `1 .. n-1` (the final attempt
`n` re-raises before the alert check); on each such attempt the branch emits
one warning iff `th ≤ attempt` and nothing otherwise, and the warnings alter
nothing else: the operation is still invoked exactly `n` times and the error
of attempt `n` is re-raised. -/
theorem retry_alert_warns_from_threshold_before_final {V : Type} (p : Policy)
    (n : Nat) (th : Int) (op : Nat → Except PyErr V) (err : Nat → PyErr)
    (clock : Nat → ℚ)
    (hmr : p.max_retries = (n : Int)) (hn : 1 ≤ n) (hmd : p.max_duration = none)
    (hth : p.alert_threshold = some th) (hth0 : th ≠ 0)
    (hop : ∀ i, op i = .error (err i))
    (hcaught : ∀ i, isCaught p.exceptions (err i) = true) :
    (wrapperRun p op clock).1 = allFailTrace p err n 1 p.delay ∧
    (∀ a : Nat, warnEvents p a = if th ≤ (a : Int) then [Event.warn] else []) ∧
    countInvokes (wrapperRun p op clock).1 = n ∧
    (wrapperRun p op clock).2 = Outcome.raised (err n) := by
  have h := wrapperRun_allFail p op clock err n hmr hn hop hcaught (by rw [hmd]; rfl)
  rw [h]
  refine ⟨rfl, ?_, ?_, rfl⟩
  · intro a
    simp [warnEvents, truthyInt, hth, hth0]
  · obtain ⟨m, rfl⟩ : ∃ m, n = m + 1 := ⟨n - 1, by omega⟩
    exact countInvokes_allFailTrace p err m 1 p.delay

/-- Witness for the amended C7 at `alert_threshold = 2`, `max_retries = 5`
(the spec's own example): the trace is the all-fail trace, whose alert
branch fires exactly at the failed attempts `2, 3, 4`. -/
theorem retry_alert_warns_from_threshold_before_final_witness :
    (wrapperRun (V := Nat) ⟨5, 1, 2, defaultExceptions, none, some 2⟩
        (fun i => Except.error ⟨ExcKind.valueError, i⟩) (fun _ => 0)).1
      = allFailTrace ⟨5, 1, 2, defaultExceptions, none, some 2⟩
          (fun i => ⟨ExcKind.valueError, i⟩) 5 1 1 ∧
    warnEvents ⟨5, 1, 2, defaultExceptions, none, some 2⟩ 1 = [] ∧
    warnEvents ⟨5, 1, 2, defaultExceptions, none, some 2⟩ 2 = [Event.warn] ∧
    countInvokes (wrapperRun (V := Nat) ⟨5, 1, 2, defaultExceptions, none, some 2⟩
        (fun i => Except.error ⟨ExcKind.valueError, i⟩) (fun _ => 0)).1 = 5 ∧
    (wrapperRun (V := Nat) ⟨5, 1, 2, defaultExceptions, none, some 2⟩
        (fun i => Except.error ⟨ExcKind.valueError, i⟩) (fun _ => 0)).2
      = Outcome.raised ⟨ExcKind.valueError, 5⟩ := by
  have h := retry_alert_warns_from_threshold_before_final (V := Nat)
    ⟨5, 1, 2, defaultExceptions, none, some 2⟩
    5 2 (fun i => Except.error ⟨ExcKind.valueError, i⟩) (fun i => ⟨ExcKind.valueError, i⟩)
    (fun _ => 0) rfl (by decide) rfl rfl (by decide) (fun _ => rfl) (fun _ => rfl)
  refine ⟨h.1, ?_, ?_, h.2.2.1, h.2.2.2⟩
  · rw [h.2.1 1]; norm_num
  · rw [h.2.1 2]; norm_num

/-- C8 counterexample: with the default `exceptions = (Exception,)`, a
raised `KeyboardInterrupt` (a `BaseException` that does not derive from
`Exception`) is not classified as retryable — it propagates on the first
invocation, untouched by the retry logic — refuting "every failure kind is
classified as retryable under the default configuration". -/
theorem retry_default_not_catch_all_cex :
    isCaught defaultExceptions ⟨ExcKind.keyboardInterrupt, 0⟩ = false ∧
    wrapperRun (V := Nat) ⟨3, 1, 2, defaultExceptions, none, none⟩
        (fun _ => Except.error ⟨ExcKind.keyboardInterrupt, 0⟩) (fun _ => 0)
      = ([Event.invoke 1], Outcome.raised ⟨ExcKind.keyboardInterrupt, 0⟩) := by
  constructor
  · rfl
  · rfl

/-- C8 (amended): the default `exceptions = (Exception,)` classifies a
failure as retryable exactly when its class derives from `Exception`: all
ordinary errors are caught, while classes deriving only from
`BaseException` (`KeyboardInterrupt`, `SystemExit`) propagate immediately. -/
theorem retry_default_catches_exactly_exception_descendants (k : ExcKind) (i : Nat) :
    isCaught defaultExceptions ⟨k, i⟩ = isSubclass k ExcKind.exception := by
  cases k <;> rfl

/-- C9: `max_retries ≥ 1` is never validated — a non-falsy value below 1
(e.g. `-1`) is resolved verbatim, `range(1, max_retries + 1)` is then empty,
and the wrapped call returns Python `None` without invoking the operation,
sleeping, logging, or raising. -/
theorem retry_nonpositive_max_retries_skips_loop {V : Type} (cfg : RetryConfig)
    (mr : Int) (d : Option ℚ) (b : ℚ) (excs : List ExcKind) (md : Option ℚ)
    (ath : Option Int) (op : Nat → Except PyErr V) (clock : Nat → ℚ)
    (hmr0 : mr ≠ 0) (hmr1 : mr < 1) :
    (retryResolve cfg (some mr) d b excs md ath).max_retries = mr ∧
    wrapperRun (retryResolve cfg (some mr) d b excs md ath) op clock
      = ([], Outcome.ok none) := by
  have h1 : (retryResolve cfg (some mr) d b excs md ath).max_retries = mr := by
    simp [retryResolve, orDefaultInt, hmr0]
  refine ⟨h1, ?_⟩
  unfold wrapperRun
  rw [show (retryResolve cfg (some mr) d b excs md ath).max_retries.toNat = 0 from by omega]
  rfl

/-- Witness for C9 at `max_retries = -1` against the built-in default
config. -/
theorem retry_nonpositive_max_retries_skips_loop_witness :
    (retryResolve ⟨3, 1⟩ (some (-1)) none 2 defaultExceptions none none).max_retries = -1 ∧
    wrapperRun (V := Nat) (retryResolve ⟨3, 1⟩ (some (-1)) none 2 defaultExceptions none none)
        (fun i => Except.ok i) (fun _ => 0)
      = ([], Outcome.ok none) :=
  retry_nonpositive_max_retries_skips_loop ⟨3, 1⟩ (-1) none 2 defaultExceptions none none
    (fun i => Except.ok i) (fun _ => 0) (by decide) (by decide)

/-- C10: the falsy-means-absent rule also governs `max_duration` and
`alert_threshold`: a wrapper with an explicit `max_duration = 0` behaves
identically, on every operation and clock, to one with `max_duration`
absent (the guard is skipped, never treated as a zero-second budget), and a
wrapper with `alert_threshold = 0` behaves identically to one with
`alert_threshold` absent (warnings are disabled, never emitted from attempt
0 onward). -/
theorem retry_zero_duration_and_zero_alert_disabled {V : Type} (p : Policy)
    (op : Nat → Except PyErr V) (clock : Nat → ℚ) :
    wrapperRun { p with max_duration := some 0 } op clock
      = wrapperRun { p with max_duration := none } op clock ∧
    wrapperRun { p with alert_threshold := some 0 } op clock
      = wrapperRun { p with alert_threshold := none } op clock := by
  constructor
  · unfold wrapperRun
    exact loopIter_md_zero p op clock (clock 0) _ 1 _ 1
  · unfold wrapperRun
    exact loopIter_alert_zero p op clock (clock 0) _ 1 _ 1

end LazyKit
